import Mathlib

/-!
Shallow embedding of the GPT façade in `src/src/lib.rs` of the `gpt` crate,
together with the codec/orchestrator operations (`header`, `partition`,
`disk` modules) that the façade calls.  Only `lib.rs` is present in the
repository snapshot; the codec operations are modelled from the
specification (§4.1, §4.3, §4.4) and each such definition carries a doc
comment saying so.  Machine integers are modelled as `Nat` (every value the
code manipulates is non-negative); byte buffers are `List Nat` with each
element a byte value.
-/

/-- Serialize a natural number as `k` little-endian bytes. -/
def leBytes (k n : Nat) : List Nat :=
  (List.range k).map (fun i => n / 2 ^ (8 * i) % 256)

/-- 16-bit little-endian serialization. -/
def u16le (n : Nat) : List Nat := leBytes 2 n

/-- 32-bit little-endian serialization. -/
def u32le (n : Nat) : List Nat := leBytes 4 n

/-- 64-bit little-endian serialization. -/
def u64le (n : Nat) : List Nat := leBytes 8 n

/-- 128-bit little-endian serialization (GUID payloads). -/
def u128le (n : Nat) : List Nat := leBytes 16 n

/-- One shift-and-conditional-xor round of the bitwise CRC-32 computation
(IEEE 802.3 reflected polynomial 0xEDB88320). -/
def crc32Round (c : Nat) : Nat :=
  if c % 2 = 1 then (c / 2) ^^^ 0xEDB88320 else c / 2

/-- Fold one byte into a CRC-32 accumulator: xor the byte in, then run
eight shift rounds. -/
def crc32Byte (c b : Nat) : Nat :=
  (List.range 8).foldl (fun acc _ => crc32Round acc) (c ^^^ b % 256)

/-- Modelled from the spec: §4.1 checksum engine, `crc32(bytes) -> u32`,
CRC-32 with the IEEE 802.3 polynomial over an arbitrary byte span (the
`crc32` dependency of the missing `header`/`partition` modules). -/
def crc32 (bytes : List Nat) : Nat :=
  (bytes.foldl crc32Byte 0xFFFFFFFF) ^^^ 0xFFFFFFFF

/-- Alias for `crc32`, usable inside the `Header` namespace where the
bare name would resolve to the header's checksum field. -/
def crc32_of (bytes : List Nat) : Nat := crc32 bytes

/-- Pad (or truncate) a byte list to exactly `n` bytes with trailing zeros. -/
def padTo (n : Nat) (bs : List Nat) : List Nat :=
  (bs ++ List.replicate n 0).take n

/-- A GPT partition entry (§3): 128-bit type identifier, 128-bit unique
identifier, starting and ending LBA (inclusive), attribute flags, and a
fixed-length UTF-16 name held as its list of 16-bit code units. -/
structure Partition where
  part_type_guid : Nat
  part_guid : Nat
  first_lba : Nat
  last_lba : Nat
  flags : Nat
  name : List Nat
deriving Repr, DecidableEq

/-- Modelled from the spec: §4.4 / §6 one partition-entry slot, typically
128 bytes: type id(16) + unique id(16) + start LBA(8) + end LBA(8) +
attributes(8) + name(72, UTF-16, null-padded). -/
def encodePartition (p : Partition) : List Nat :=
  u128le p.part_type_guid ++ u128le p.part_guid ++ u64le p.first_lba ++
    u64le p.last_lba ++ u64le p.flags ++ padTo 72 (p.name.flatMap u16le)

/-- Modelled from the spec: §4.4 `encode_array(partitions, entry_count,
entry_size) -> bytes` of the missing `partition` module — serialize each
logical partition into a slot, zero-fill the remaining declared slots,
producing exactly `entry_count * entry_size` bytes. -/
def encode_array (pp : List Partition) (entry_count entry_size : Nat) : List Nat :=
  padTo (entry_count * entry_size)
    ((pp.map (fun p => padTo entry_size (encodePartition p))).flatten)

/-- The GPT header (§3): signature, revision, declared header size, stored
checksum, reserved field, this-header's own LBA, the alternate header's
LBA, first/last usable LBA, disk identifier, partition-entry-array LBA,
entry count, entry size, and the partition-array checksum. -/
structure Header where
  signature : List Nat
  revision : List Nat
  header_size : Nat
  crc32 : Nat
  reserved : Nat
  my_lba : Nat
  alternate_lba : Nat
  first_usable : Nat
  last_usable : Nat
  disk_guid : Nat
  part_start : Nat
  num_parts : Nat
  part_size : Nat
  crc32_parts : Nat
deriving Repr, DecidableEq

/-- The fixed 8-byte GPT signature magic, the ASCII bytes of EFI PART. -/
def gptSignature : List Nat := [0x45, 0x46, 0x49, 0x20, 0x50, 0x41, 0x52, 0x54]

/-- The fixed GPT revision bytes (1.0). -/
def gptRevision : List Nat := [0x00, 0x00, 0x01, 0x00]

/-- Modelled from the spec: §4.3 `encode(header) -> raw_sector` fixed
little-endian field layout of the 92-byte header structure (zero-padding
to the block size is done by the sector writer). -/
def encodeHeader (h : Header) : List Nat :=
  h.signature ++ h.revision ++ u32le h.header_size ++ u32le h.crc32 ++
    u32le h.reserved ++ u64le h.my_lba ++ u64le h.alternate_lba ++
    u64le h.first_usable ++ u64le h.last_usable ++ u128le h.disk_guid ++
    u64le h.part_start ++ u32le h.num_parts ++ u32le h.part_size ++
    u32le h.crc32_parts

/-- Number of 512-byte sectors occupied by the conventional partition
array of 128 entries of 128 bytes each (§6). -/
def arraySectors : Nat := 128 * 128 / 512

/-- Modelled from the spec: §4.3 the header with every field of
`compute_new` set except the header checksum, which is left zeroed here so
the checksum can be computed over these bytes.  Primary: this-LBA 1,
alternate `backup_lba`, array immediately after the primary header.
Backup: this-LBA `backup_lba`, alternate 1, array immediately before the
backup header.  First/last usable LBA derived so usable space overlaps
neither header nor either array copy; partition-array checksum over the
encoded `partitions`. -/
def Header.computeCore (isPrimary : Bool) (pp : List Partition)
    (diskId backupLba : Nat) : Header :=
  { signature := gptSignature
    revision := gptRevision
    header_size := 92
    crc32 := 0
    reserved := 0
    my_lba := if isPrimary then 1 else backupLba
    alternate_lba := if isPrimary then backupLba else 1
    first_usable := 2 + arraySectors
    last_usable := backupLba - arraySectors - 1
    disk_guid := diskId
    part_start := if isPrimary then 2 else backupLba - arraySectors
    num_parts := 128
    part_size := 128
    crc32_parts := crc32_of (encode_array pp 128 128) }

/-- Modelled from the spec: §4.3 `compute_new(is_primary, partitions,
disk_id, backup_lba) -> Header` of the missing `header` module — the
single authority for header geometry; computes the partition-array
checksum first, then the header checksum over the header bytes with the
checksum field zeroed. -/
def Header.compute_new (isPrimary : Bool) (pp : List Partition)
    (diskId backupLba : Nat) : Header :=
  let h0 := Header.computeCore isPrimary pp diskId backupLba
  { h0 with crc32 := crc32_of (encodeHeader h0) }

/-- The typed error kinds of §7.  The façade in `lib.rs` surfaces
`NotWritable` and `NotInitialized` itself; the remaining kinds come from
the codec modules. -/
inductive GptError where
  | ioError
  | invalidSignature
  | checksumMismatch
  | partitionTableCorrupt
  | notWritable
  | notInitialized
deriving Repr, DecidableEq

/-- An observable disk-mutating event of the persistence path: a header
sector written through `write_backup` or `write_primary` at a byte
position, or a flush of the file. -/
inductive WEvent where
  | writeBackup (pos : Nat) (h : Header)
  | writePrimary (pos : Nat) (h : Header)
  | flush
deriving Repr, DecidableEq

/-- An observable read event of the open path: which on-disk structure was
read from the file. -/
inductive REvent where
  | readPrimary
  | readBackup
  | readPartitions
deriving Repr, DecidableEq

/-- The backing file of a disk session.  `len` is the file length in
bytes; the `Ok` flags are the success outcomes of the individual I/O
system calls the session can make (length query, the two header sector
writes, the flush), so every I/O failure path of the code is reachable in
the model. -/
structure FileModel where
  len : Nat
  lenOk : Bool
  writeBackupOk : Bool
  writePrimaryOk : Bool
  flushOk : Bool
deriving Repr, DecidableEq

/-- Modelled from the spec: §4.3 `find_backup_lba(file, block_size) ->
LBA` of the missing `header` module — the conventional backup location
`floor(file_length / block_size) - 1`; fails `IoError` when the length
cannot be determined or the device is below the minimum viable size
(protective record + primary header + one usable sector + backup
header, i.e. four sectors). -/
def find_backup_lba (f : FileModel) (lb_size : Nat) : Except GptError Nat :=
  if f.lenOk = false then .error .ioError
  else if f.len / lb_size < 4 then .error .ioError
  else .ok (f.len / lb_size - 1)

/-- Modelled from the spec: §4.3 `write_backup(file, header, block_size)`
of the missing `header` module — seek to `header.my_lba * block_size`,
write the encoded sector, propagate `IoError` on failure.  Returns the
resulting disk event. -/
def Header.write_backup (h : Header) (f : FileModel) (lb_size : Nat) :
    Except GptError WEvent :=
  if f.writeBackupOk then .ok (.writeBackup (h.my_lba * lb_size) h)
  else .error .ioError

/-- Modelled from the spec: §4.3 `write_primary(file, header, block_size)`
of the missing `header` module — seek to `header.my_lba * block_size`,
write the encoded sector, propagate `IoError` on failure. -/
def Header.write_primary (h : Header) (f : FileModel) (lb_size : Nat) :
    Except GptError WEvent :=
  if f.writePrimaryOk then .ok (.writePrimary (h.my_lba * lb_size) h)
  else .error .ioError

/-- `GptConfig` from `lib.rs`: logical block size, writable mode, and
whether to expect an initialized disk image. -/
structure GptConfig where
  lb_size : Nat
  writable : Bool
  initialized : Bool
deriving Repr, DecidableEq

/-- `GptDisk` from `lib.rs`: configuration, backing file, disk UUID,
optional primary and backup headers, and the partition list.  The UUID is
a 128-bit value modelled as `Nat`; the `path` field is dropped (it is
never consulted after open). -/
structure GptDisk where
  config : GptConfig
  file : FileModel
  guid : Nat
  primary_header : Option Header
  backup_header : Option Header
  partitions : List Partition
deriving Repr, DecidableEq

/-- The environment `GptConfig::open` runs against: whether the file open
itself succeeds, the freshly generated random UUID used for uninitialized
disks, the resulting file handle, and the outcomes of
`read_primary_header`, `read_backup_header` and `file_read_partitions`
(modelled from the spec as fallible reads, since the `header` and
`partition` modules are not in the snapshot). -/
structure OpenEnv where
  openOk : Bool
  freshGuid : Nat
  file : FileModel
  primaryRead : Except GptError Header
  backupRead : Except GptError Header
  partsRead : Except GptError (List Partition)
deriving Repr

/-- `GptConfig::open` from `lib.rs`: with `initialized = false`, open the
file and return an empty session (no headers, no partitions, fresh random
UUID) without reading the disk; with `initialized = true`, read the
primary header, then the backup header, then the partition table, failing
fast on the first error.  The returned trace lists the structure reads
performed, in order. -/
def GptConfig.openDisk (cfg : GptConfig) (env : OpenEnv) :
    List REvent × Except GptError GptDisk :=
  if cfg.initialized = false then
    if env.openOk then
      ([], .ok { config := cfg, file := env.file, guid := env.freshGuid,
                 primary_header := none, backup_header := none,
                 partitions := [] })
    else ([], .error .ioError)
  else if env.openOk = false then ([], .error .ioError)
  else
    match env.primaryRead with
    | .error e => ([.readPrimary], .error e)
    | .ok h1 =>
      match env.backupRead with
      | .error e => ([.readPrimary, .readBackup], .error e)
      | .ok h2 =>
        match env.partsRead with
        | .error e => ([.readPrimary, .readBackup, .readPartitions], .error e)
        | .ok table =>
          ([.readPrimary, .readBackup, .readPartitions],
           .ok { config := cfg, file := env.file, guid := h1.disk_guid,
                 primary_header := some h1, backup_header := some h2,
                 partitions := table })

/-- `GptDisk::update_guid` from `lib.rs`: set the session UUID to the
given value, or to a freshly generated random one (`fresh`) when none is
given; always returns `Ok`. -/
def GptDisk.update_guid (d : GptDisk) (uuid : Option Nat) (fresh : Nat) :
    Except GptError GptDisk :=
  let g := match uuid with
    | some u => u
    | none => fresh
  .ok { d with guid := g }

/-- `GptDisk::update_partitions` from `lib.rs`: locate the backup LBA,
compute a fresh primary header (`compute_new true`) and a fresh backup
header (`compute_new false`) from the new partition list and the session
UUID, store both together with the list, and mark the session
initialized. -/
def GptDisk.update_partitions (d : GptDisk) (pp : List Partition) :
    Except GptError GptDisk :=
  match find_backup_lba d.file d.config.lb_size with
  | .error e => .error e
  | .ok bak =>
    let h1 := Header.compute_new true pp d.guid bak
    let h2 := Header.compute_new false pp d.guid bak
    .ok { d with primary_header := some h1, backup_header := some h2,
                 partitions := pp,
                 config := { d.config with initialized := true } }

/-- `GptDisk::write` from `lib.rs`: fail `NotWritable` when the session is
not writable, else fail `NotInitialized` when it is not initialized; else
locate the backup LBA, compute `h2` and `h1` both as
`compute_new(true, &[], guid, bak)` (exactly as the source does), write
`h2` through `write_backup`, write `h1` through `write_primary`, flush,
store the two headers, and return the session with them (the Rust
function returns the underlying `File`; the model returns the whole final
session, whose `file` field is that handle).  The first component is the
trace of disk events actually performed, also on error paths. -/
def GptDisk.write (d : GptDisk) : List WEvent × Except GptError GptDisk :=
  if d.config.writable = false then ([], .error .notWritable)
  else if d.config.initialized = false then ([], .error .notInitialized)
  else
    match find_backup_lba d.file d.config.lb_size with
    | .error e => ([], .error e)
    | .ok bak =>
      let h2 := Header.compute_new true [] d.guid bak
      let h1 := Header.compute_new true [] d.guid bak
      match h2.write_backup d.file d.config.lb_size with
      | .error e => ([], .error e)
      | .ok ev2 =>
        match h1.write_primary d.file d.config.lb_size with
        | .error e => ([ev2], .error e)
        | .ok ev1 =>
          if d.file.flushOk then
            ([ev2, ev1, .flush],
             .ok { d with primary_header := some h1, backup_header := some h2 })
          else ([ev2, ev1], .error .ioError)

/-- A fully healthy 20480-byte (40-sector) backing file: every I/O call
succeeds.  `find_backup_lba` on it with 512-byte blocks yields LBA 39. -/
def goodFile : FileModel :=
  { len := 20480, lenOk := true, writeBackupOk := true,
    writePrimaryOk := true, flushOk := true }

/-- A sample partition entry used as concrete input. -/
def samplePart : Partition :=
  { part_type_guid := 0xAB, part_guid := 0xCD, first_lba := 34,
    last_lba := 40, flags := 0, name := [0x41] }

/-- A writable, initialized session on `goodFile` with UUID 7 and an empty
partition list. -/
def okDisk : GptDisk :=
  { config := { lb_size := 512, writable := true, initialized := true },
    file := goodFile, guid := 7, primary_header := none,
    backup_header := none, partitions := [] }

/-- The header `GptDisk::write` computes (twice) on `okDisk`:
`compute_new(true, &[], 7, 39)`. -/
def okHeader : Header := Header.compute_new true [] 7 39

/-- The session `okDisk.write` succeeds with: both stored headers are
`okHeader`. -/
def okDiskFinal : GptDisk :=
  { okDisk with primary_header := some okHeader, backup_header := some okHeader }

/-- `okDisk` holding one partition in its list: the failing input for the
persist path, since `write` ignores the list. -/
def c1Disk : GptDisk := { okDisk with partitions := [samplePart] }

/-- The session `c1Disk.write` succeeds with. -/
def c1DiskFinal : GptDisk :=
  { c1Disk with primary_header := some okHeader, backup_header := some okHeader }

/-- In this model the only error `find_backup_lba` can produce is
`IoError`. -/
theorem find_backup_lba_error_eq (f : FileModel) (lb : Nat) (e : GptError)
    (h : find_backup_lba f lb = .error e) : e = .ioError := by
  unfold find_backup_lba at h
  split at h
  · simp_all
  · split at h <;> simp_all

/-- In this model the only error `write_backup` can produce is `IoError`. -/
theorem write_backup_error_eq (hd : Header) (f : FileModel) (lb : Nat) (e : GptError)
    (h : hd.write_backup f lb = .error e) : e = .ioError := by
  unfold Header.write_backup at h
  split at h <;> simp_all

/-- In this model the only error `write_primary` can produce is `IoError`. -/
theorem write_primary_error_eq (hd : Header) (f : FileModel) (lb : Nat) (e : GptError)
    (h : hd.write_primary f lb = .error e) : e = .ioError := by
  unfold Header.write_primary at h
  split at h <;> simp_all

/-- Claim C1 (evaluation at the failing input): on a writable, initialized
session holding one partition, `GptDisk::write` succeeds but computes both
headers as `compute_new(true, &[], guid, bak)` — the current partition
list is discarded and the header written (and stored) as the backup is not
the backup header `rebuild` would produce (`compute_new(false,
partitions, guid, bak)`); indeed the emitted write trace is identical to
that of the same session with an empty partition list. -/
theorem write_rebuild_divergence :
    c1Disk.write =
      ([.writeBackup 512 okHeader, .writePrimary 512 okHeader, .flush],
       .ok c1DiskFinal) ∧
    okHeader = Header.compute_new true [] c1Disk.guid 39 ∧
    Header.compute_new false c1Disk.partitions c1Disk.guid 39 ≠ okHeader ∧
    (c1Disk.write).1 = (({ c1Disk with partitions := [] }).write).1 := by
  refine ⟨rfl, rfl, ?_, rfl⟩
  intro hEq
  have h39 : (39 : Nat) = 1 := congrArg Header.my_lba hEq
  exact absurd h39 (by decide)

/-- Claim C2: for every partition list, disk identifier and backup LBA,
the two headers of the rebuild step — `compute_new(true, P, g, b)` and
`compute_new(false, P, g, b)`, exactly the pair `update_partitions`
computes — are mutually consistent: each one's alternate-LBA equals the
other's this-LBA. -/
theorem compute_new_mutual_consistency (pp : List Partition) (g b : Nat) :
    (Header.compute_new true pp g b).alternate_lba =
      (Header.compute_new false pp g b).my_lba ∧
    (Header.compute_new false pp g b).alternate_lba =
      (Header.compute_new true pp g b).my_lba :=
  ⟨rfl, rfl⟩

/-- Claim C3: `GptDisk::write` fails `NotWritable` whenever the session is
not writable — the writable check comes first, so this is the error even
on an uninitialized session — and otherwise fails `NotInitialized`
whenever the session is not initialized; in both cases the emitted disk
trace is empty, so nothing is written. -/
theorem write_precondition_errors (d : GptDisk) :
    (d.config.writable = false → d.write = ([], .error .notWritable)) ∧
    (d.config.writable = true → d.config.initialized = false →
      d.write = ([], .error .notInitialized)) := by
  constructor
  · intro hw
    unfold GptDisk.write
    simp [hw]
  · intro hw hi
    unfold GptDisk.write
    simp [hw, hi]

/-- Read-only uninitialized session (the spec's zero-filled image opened
with assume_initialized = false and no write mode). -/
def c3DiskRO : GptDisk :=
  { okDisk with config := { lb_size := 512, writable := false, initialized := false } }

/-- Writable but uninitialized session. -/
def c3DiskU : GptDisk :=
  { okDisk with config := { lb_size := 512, writable := true, initialized := false } }

/-- Claim C3 witness: concrete sessions exercising both error branches. -/
theorem write_precondition_errors_witness :
    c3DiskRO.config.writable = false ∧
    c3DiskRO.write = ([], .error .notWritable) ∧
    c3DiskU.config.writable = true ∧ c3DiskU.config.initialized = false ∧
    c3DiskU.write = ([], .error .notInitialized) :=
  ⟨rfl, (write_precondition_errors c3DiskRO).1 rfl, rfl, rfl,
   (write_precondition_errors c3DiskU).2 rfl rfl⟩

/-- Shape of a successful `GptDisk::write`: given the backup LBA the
length query returned, the emitted trace is exactly backup-write,
primary-write, flush — both of the header `compute_new(true, &[], guid,
bak)`, at that header's own LBA — and the final session stores that header
in both slots, every other field unchanged. -/
theorem write_ok_elim (d d' : GptDisk) (tr : List WEvent) (bak : Nat)
    (hfb : find_backup_lba d.file d.config.lb_size = .ok bak)
    (h : d.write = (tr, .ok d')) :
    tr = [.writeBackup ((Header.compute_new true [] d.guid bak).my_lba * d.config.lb_size)
            (Header.compute_new true [] d.guid bak),
          .writePrimary ((Header.compute_new true [] d.guid bak).my_lba * d.config.lb_size)
            (Header.compute_new true [] d.guid bak),
          .flush] ∧
    d' = { d with primary_header := some (Header.compute_new true [] d.guid bak),
                  backup_header := some (Header.compute_new true [] d.guid bak) } := by
  obtain ⟨⟨lb, w, i⟩, f, g, ph, bh, ps⟩ := d
  obtain ⟨len, lenOk, wbk, wpr, fl⟩ := f
  cases w <;> cases i <;> cases wbk <;> cases wpr <;> cases fl <;>
    simp_all [GptDisk.write, Header.write_backup, Header.write_primary]

/-- Claim C4: in a successful `GptDisk::write`, the backup header is
written first, then the primary header, then the flush — in that exact
order and nothing else — and the returned success value carries the
session's underlying file handle, with the written headers stored as the
session's backup and primary headers. -/
theorem write_success_sequence (d d' : GptDisk) (tr : List WEvent) (bak : Nat)
    (hfb : find_backup_lba d.file d.config.lb_size = .ok bak)
    (h : d.write = (tr, .ok d')) :
    tr = [.writeBackup ((Header.compute_new true [] d.guid bak).my_lba * d.config.lb_size)
            (Header.compute_new true [] d.guid bak),
          .writePrimary ((Header.compute_new true [] d.guid bak).my_lba * d.config.lb_size)
            (Header.compute_new true [] d.guid bak),
          .flush] ∧
    d'.file = d.file ∧
    d'.backup_header = some (Header.compute_new true [] d.guid bak) ∧
    d'.primary_header = some (Header.compute_new true [] d.guid bak) := by
  obtain ⟨ht, hd'⟩ := write_ok_elim d d' tr bak hfb h
  subst hd'
  exact ⟨ht, rfl, rfl, rfl⟩

/-- The trace of the successful `okDisk.write`. -/
def okTrace : List WEvent :=
  [.writeBackup 512 okHeader, .writePrimary 512 okHeader, .flush]

/-- Claim C4 witness: the concrete writable initialized session. -/
theorem write_success_sequence_witness :
    find_backup_lba okDisk.file okDisk.config.lb_size = .ok 39 ∧
    okDisk.write = (okTrace, .ok okDiskFinal) ∧
    (okTrace = [.writeBackup ((Header.compute_new true [] okDisk.guid 39).my_lba * okDisk.config.lb_size)
                  (Header.compute_new true [] okDisk.guid 39),
                .writePrimary ((Header.compute_new true [] okDisk.guid 39).my_lba * okDisk.config.lb_size)
                  (Header.compute_new true [] okDisk.guid 39),
                .flush] ∧
     okDiskFinal.file = okDisk.file ∧
     okDiskFinal.backup_header = some (Header.compute_new true [] okDisk.guid 39) ∧
     okDiskFinal.primary_header = some (Header.compute_new true [] okDisk.guid 39)) :=
  ⟨rfl, rfl, write_success_sequence okDisk okDiskFinal okTrace 39 rfl rfl⟩

/-- Claim C5: both headers of a successful `GptDisk::write` come from
`compute_new` with identical arguments — `is_primary = true` both times,
the empty partition list, the session UUID, and the backup LBA — so the
stored primary and backup headers are equal, and the header has primary
layout (`my_lba = 1`), not backup layout. -/
theorem write_headers_identical (d d' : GptDisk) (tr : List WEvent) (bak : Nat)
    (hfb : find_backup_lba d.file d.config.lb_size = .ok bak)
    (h : d.write = (tr, .ok d')) :
    d'.primary_header = some (Header.compute_new true [] d.guid bak) ∧
    d'.backup_header = some (Header.compute_new true [] d.guid bak) ∧
    d'.primary_header = d'.backup_header ∧
    (Header.compute_new true [] d.guid bak).my_lba = 1 := by
  obtain ⟨-, hd'⟩ := write_ok_elim d d' tr bak hfb h
  subst hd'
  exact ⟨rfl, rfl, rfl, rfl⟩

/-- Claim C5 witness: the concrete writable initialized session. -/
theorem write_headers_identical_witness :
    find_backup_lba okDisk.file okDisk.config.lb_size = .ok 39 ∧
    okDisk.write = (okTrace, .ok okDiskFinal) ∧
    (okDiskFinal.primary_header = some (Header.compute_new true [] okDisk.guid 39) ∧
     okDiskFinal.backup_header = some (Header.compute_new true [] okDisk.guid 39) ∧
     okDiskFinal.primary_header = okDiskFinal.backup_header ∧
     (Header.compute_new true [] okDisk.guid 39).my_lba = 1) :=
  ⟨rfl, rfl, write_headers_identical okDisk okDiskFinal okTrace 39 rfl rfl⟩

/-- Claim C6: whenever the file open succeeds, `GptConfig::open` with
`initialized = false` returns — without reading anything — a session whose
primary header is `none`, backup header is `none`, and partition list is
empty, carrying a freshly generated UUID. -/
theorem open_uninitialized_empty (cfg : GptConfig) (env : OpenEnv)
    (hinit : cfg.initialized = false) (hok : env.openOk = true) :
    cfg.openDisk env =
      ([], .ok { config := cfg, file := env.file, guid := env.freshGuid,
                 primary_header := none, backup_header := none,
                 partitions := [] }) := by
  unfold GptConfig.openDisk
  simp [hinit, hok]

/-- Configuration for the uninitialized open scenario. -/
def c6Cfg : GptConfig := { lb_size := 512, writable := false, initialized := false }

/-- Environment for the uninitialized open scenario: the open succeeds;
the read outcomes are irrelevant (and would fail if consulted). -/
def c6Env : OpenEnv :=
  { openOk := true, freshGuid := 11, file := goodFile,
    primaryRead := .error .ioError, backupRead := .error .ioError,
    partsRead := .error .ioError }

/-- Claim C6 witness: the concrete uninitialized open. -/
theorem open_uninitialized_empty_witness :
    c6Cfg.initialized = false ∧ c6Env.openOk = true ∧
    c6Cfg.openDisk c6Env =
      ([], .ok { config := c6Cfg, file := c6Env.file, guid := c6Env.freshGuid,
                 primary_header := none, backup_header := none,
                 partitions := [] }) :=
  ⟨rfl, rfl, open_uninitialized_empty c6Cfg c6Env rfl rfl⟩

/-- Claim C7: when `GptConfig::open` runs with `initialized = true` and
reading/decoding the primary header fails, that error is returned
immediately: the read trace contains only the primary-header read — the
backup header is never read — and no session is produced. -/
theorem open_primary_error_no_backup (cfg : GptConfig) (env : OpenEnv) (e : GptError)
    (hinit : cfg.initialized = true) (hok : env.openOk = true)
    (hp : env.primaryRead = .error e) :
    cfg.openDisk env = ([.readPrimary], .error e) ∧
    REvent.readBackup ∉ (cfg.openDisk env).1 := by
  have hmain : cfg.openDisk env = ([.readPrimary], .error e) := by
    unfold GptConfig.openDisk
    simp [hinit, hok, hp]
  refine ⟨hmain, ?_⟩
  rw [hmain]
  simp

/-- Configuration for the corrupted-primary open scenario. -/
def c7Cfg : GptConfig := { lb_size := 512, writable := false, initialized := true }

/-- Environment for the corrupted-primary open scenario: the open
succeeds, the primary header fails its checksum, the backup would be
readable. -/
def c7Env : OpenEnv :=
  { openOk := true, freshGuid := 11, file := goodFile,
    primaryRead := .error .checksumMismatch,
    backupRead := .ok (Header.compute_new false [] 7 39),
    partsRead := .ok [] }

/-- Claim C7 witness: the concrete corrupted-primary open. -/
theorem open_primary_error_no_backup_witness :
    c7Cfg.initialized = true ∧ c7Env.openOk = true ∧
    c7Env.primaryRead = .error .checksumMismatch ∧
    (c7Cfg.openDisk c7Env = ([.readPrimary], .error .checksumMismatch) ∧
     REvent.readBackup ∉ (c7Cfg.openDisk c7Env).1) :=
  ⟨rfl, rfl, rfl,
   open_primary_error_no_backup c7Cfg c7Env .checksumMismatch rfl rfl rfl⟩

/-- Claim C8: `GptDisk::update_partitions` replaces the primary header,
the backup header and the partition list together in one step, computing
both headers afresh from the new list with `compute_new`; and its result
is independent of whatever headers or partitions were stored before, so no
field of a previously stored header and no stored entry is ever patched in
place. -/
theorem update_partitions_wholesale (d : GptDisk) (pp : List Partition)
    (d' : GptDisk) (bak : Nat)
    (hfb : find_backup_lba d.file d.config.lb_size = .ok bak)
    (h : d.update_partitions pp = .ok d') :
    d' = { d with
           primary_header := some (Header.compute_new true pp d.guid bak),
           backup_header := some (Header.compute_new false pp d.guid bak),
           partitions := pp,
           config := { d.config with initialized := true } } ∧
    ∀ p0 b0 q0, GptDisk.update_partitions
        { d with primary_header := p0, backup_header := b0, partitions := q0 } pp
      = d.update_partitions pp := by
  constructor
  · unfold GptDisk.update_partitions at h
    rw [hfb] at h
    simp at h
    exact h.symm
  · intro p0 b0 q0
    obtain ⟨c, f, g, ph, bh, ps⟩ := d
    rfl

/-- The session after `okDiskFinal.update_partitions [samplePart]`. -/
def c8DiskFinal : GptDisk :=
  { okDiskFinal with
    primary_header := some (Header.compute_new true [samplePart] 7 39),
    backup_header := some (Header.compute_new false [samplePart] 7 39),
    partitions := [samplePart] }

/-- Claim C8 witness: replacing the stored state of a session that already
holds headers. -/
theorem update_partitions_wholesale_witness :
    find_backup_lba okDiskFinal.file okDiskFinal.config.lb_size = .ok 39 ∧
    okDiskFinal.update_partitions [samplePart] = .ok c8DiskFinal ∧
    c8DiskFinal =
      { okDiskFinal with
        primary_header := some (Header.compute_new true [samplePart] okDiskFinal.guid 39),
        backup_header := some (Header.compute_new false [samplePart] okDiskFinal.guid 39),
        partitions := [samplePart],
        config := { okDiskFinal.config with initialized := true } } ∧
    GptDisk.update_partitions
        { okDiskFinal with primary_header := none, backup_header := none,
                           partitions := [] } [samplePart]
      = okDiskFinal.update_partitions [samplePart] :=
  ⟨rfl, rfl,
   (update_partitions_wholesale okDiskFinal [samplePart] c8DiskFinal 39 rfl rfl).1,
   (update_partitions_wholesale okDiskFinal [samplePart] c8DiskFinal 39 rfl rfl).2
     none none []⟩

/-- Claim C9: `GptDisk::update_guid` always returns `Ok` and changes only
the session UUID (to the given value, or to the freshly generated one when
none is given): the stored primary header, backup header, partition list,
configuration and file are all left untouched, so the identifier embedded
in the stored headers may now differ from the session UUID. -/
theorem update_guid_ok_frame (d : GptDisk) (uuid : Option Nat) (fresh : Nat) :
    d.update_guid uuid fresh = .ok { d with guid := uuid.getD fresh } ∧
    ({ d with guid := uuid.getD fresh } : GptDisk).primary_header = d.primary_header ∧
    ({ d with guid := uuid.getD fresh } : GptDisk).backup_header = d.backup_header ∧
    ({ d with guid := uuid.getD fresh } : GptDisk).partitions = d.partitions ∧
    ({ d with guid := uuid.getD fresh } : GptDisk).config = d.config ∧
    ({ d with guid := uuid.getD fresh } : GptDisk).file = d.file := by
  refine ⟨?_, rfl, rfl, rfl, rfl, rfl⟩
  cases uuid <;> rfl

/-- Claim C10: a successful `update_partitions` marks the session
initialized, and a subsequent `write` on the resulting session can fail
only `NotWritable` or with an I/O error — its `NotInitialized` branch is
unreachable. -/
theorem update_partitions_enables_write (d : GptDisk) (pp : List Partition)
    (d' : GptDisk) (h : d.update_partitions pp = .ok d') :
    d'.config.initialized = true ∧
    ∀ tr e, d'.write = (tr, .error e) → e = .notWritable ∨ e = .ioError := by
  obtain ⟨⟨lb, w, i⟩, ⟨len, lok, wbk, wpr, fl⟩, g, ph, bh, ps⟩ := d
  unfold GptDisk.update_partitions at h
  cases hfb : find_backup_lba ⟨len, lok, wbk, wpr, fl⟩ lb with
  | error e0 =>
    rw [hfb] at h
    simp at h
  | ok bak =>
    rw [hfb] at h
    simp at h
    subst h
    refine ⟨rfl, ?_⟩
    intro tr e hw
    cases w <;> cases wbk <;> cases wpr <;> cases fl <;>
      simp_all [GptDisk.write, Header.write_backup, Header.write_primary]

/-- Read-only uninitialized session on the healthy file, input of the
Claim C10 witness. -/
def c10Disk : GptDisk :=
  { config := { lb_size := 512, writable := false, initialized := false },
    file := goodFile, guid := 7, primary_header := none,
    backup_header := none, partitions := [] }

/-- The session after `c10Disk.update_partitions []`: initialized, still
read-only. -/
def c10DiskFinal : GptDisk :=
  { c10Disk with
    primary_header := some (Header.compute_new true [] 7 39),
    backup_header := some (Header.compute_new false [] 7 39),
    config := { lb_size := 512, writable := false, initialized := true } }

/-- Claim C10 witness: after the concrete `update_partitions`, `write`
fails `NotWritable` — not `NotInitialized`. -/
theorem update_partitions_enables_write_witness :
    c10Disk.update_partitions [] = .ok c10DiskFinal ∧
    c10DiskFinal.config.initialized = true ∧
    c10DiskFinal.write = ([], .error .notWritable) ∧
    (GptError.notWritable = .notWritable ∨ GptError.notWritable = .ioError) :=
  ⟨rfl, (update_partitions_enables_write c10Disk [] c10DiskFinal rfl).1, rfl,
   (update_partitions_enables_write c10Disk [] c10DiskFinal rfl).2 [] .notWritable rfl⟩
